import Mathlib

/-!
Verification model of the Andrey79999/kanban repository.

The development shallowly embeds the two Python services:
* `Kanban.Board` — the board service (tasks CRUD, websocket manager),
  from `board_service/` (`services/task_service.py`,
  `repositories/task_repository.py`, `services/websocket_manager.py`,
  `schemas/task.py`).
* `Kanban.FileSvc` — the file service (uploads, object storage, metadata),
  from `file_service/` (`services/file_service.py`, `services/s3_service.py`,
  `repositories/file_repository.py`, `api/files.py`).

Python dictionaries are modelled as insertion-ordered association lists,
Python sets as `Finset`, database tables as lists of records, timestamps as
naturals, file bytes as `List Nat`, and fallible calls as `Except`-valued
functions.  Exception handlers (`try`/`except`) become total matches on the
`Except` value of the guarded call.
-/

namespace Kanban

/-- Python dict lookup `d.get(k)`: value of the first (unique) entry with
key `k`. -/
def dictGet {K V : Type} [DecidableEq K] (k : K) (d : List (K × V)) : Option V :=
  (d.find? (fun p => p.1 = k)).map Prod.snd

/-- Python dict assignment `d[k] = v`: replace in place if the key exists,
otherwise append (insertion order). -/
def dictSet {K V : Type} [DecidableEq K] (k : K) (v : V) : List (K × V) → List (K × V)
  | [] => [(k, v)]
  | p :: rest => if p.1 = k then (k, v) :: rest else p :: dictSet k v rest

/-- Python dict `d.pop(k, None)`: drop the entry with key `k` if present. -/
def dictPop {K V : Type} [DecidableEq K] (k : K) : List (K × V) → List (K × V)
  | [] => []
  | p :: rest => if p.1 = k then rest else p :: dictPop k rest

end Kanban

namespace Kanban.Board

/-- `TaskStatus` enum from `board_service/models/task.py`. -/
inductive TaskStatus where
  | todo
  | in_progress
  | done
deriving DecidableEq, Repr

/-- The `tasks` table row from `board_service/models/task.py`.  The
`description` column is nullable; timestamps are modelled as naturals. -/
structure Task where
  id : Nat
  title : String
  description : Option String
  status : TaskStatus
  created_at : Nat
  updated_at : Nat
deriving DecidableEq, Repr

/-- A JSON field of a request body: absent key, explicit `null`, or a
present value. -/
inductive JsonField (α : Type) where
  | absent
  | null
  | present (a : α)
deriving DecidableEq, Repr

/-- A PUT `/tasks/{id}` request body, field by field, before Pydantic
parsing (so absent and explicit-null keys are still distinguishable). -/
structure TaskUpdateBody where
  title : JsonField String
  description : JsonField String
  status : JsonField TaskStatus
deriving DecidableEq, Repr

/-- The parsed `TaskUpdate` Pydantic model from
`board_service/schemas/task.py`: every field is `Optional[...] = None`,
so both an absent key and an explicit `null` parse to `None`. -/
structure TaskUpdate where
  title : Option String
  description : Option String
  status : Option TaskStatus
deriving DecidableEq, Repr

/-- Pydantic parsing of a `TaskUpdate` body: a present value is kept,
while an absent key and an explicit `null` both become `None` (the
field's declared default). -/
def parseTaskUpdate (b : TaskUpdateBody) : TaskUpdate :=
  { title := match b.title with
      | .present v => some v
      | _ => none
    description := match b.description with
      | .present v => some v
      | _ => none
    status := match b.status with
      | .present v => some v
      | _ => none }

/-- `TaskRepository.get_by_id`: the row whose primary key matches. -/
def task_get_by_id (db : List Task) (task_id : Nat) : Option Task :=
  db.find? (fun t => t.id = task_id)

/-- `TaskService.update_task` from
`board_service/services/task_service.py` lines 97-119: load the task
(`None` if absent), then overwrite each field only when the parsed value
`is not None`, then persist the modified row. -/
def update_task (db : List Task) (task_id : Nat) (task_data : TaskUpdate) :
    Option (List Task × Task) :=
  match task_get_by_id db task_id with
  | none => none
  | some task =>
    let t1 := match task_data.title with
      | some v => { task with title := v }
      | none => task
    let t2 := match task_data.description with
      | some v => { t1 with description := some v }
      | none => t1
    let t3 := match task_data.status with
      | some v => { t2 with status := v }
      | none => t2
    some (db.map (fun x => if x.id = task_id then t3 else x), t3)

/-- PUT `/tasks/{id}` from `board_service/api/tasks.py`: parse the body
through the `TaskUpdate` schema, then run `TaskService.update_task`. -/
def update_task_endpoint (db : List Task) (task_id : Nat) (body : TaskUpdateBody) :
    Option (List Task × Task) :=
  update_task db task_id (parseTaskUpdate body)

/-- `TaskService._delete_task_files`: performs the cross-service HTTP
DELETE (whose outcome is the `Except` argument) inside a bare
`try`/`except` that swallows every failure, so the call as a whole always
returns normally. -/
def delete_task_files (call : Except String Unit) : Except String Unit :=
  match call with
  | .ok _ => .ok ()
  | .error _ => .ok ()

/-- `TaskService.delete_task` from
`board_service/services/task_service.py` lines 142-182: load the task
(report `false` if absent), run the guarded file-cleanup call, then
delete the row and report `true`. -/
def delete_task (db : List Task) (cleanup_call : Except String Unit) (task_id : Nat) :
    Except String (List Task × Bool) :=
  match task_get_by_id db task_id with
  | none => .ok (db, false)
  | some _ => do
    let _ ← delete_task_files cleanup_call
    .ok (db.eraseP (fun t => t.id = task_id), true)

/-- Ordering used by `TaskRepository.get_all`: `created_at` descending. -/
def createdDesc (a b : Task) : Prop := b.created_at ≤ a.created_at

instance : DecidableRel createdDesc := fun a b =>
  inferInstanceAs (Decidable (b.created_at ≤ a.created_at))

instance : IsTotal Task createdDesc :=
  ⟨fun a b => Nat.le_total b.created_at a.created_at⟩

instance : IsTrans Task createdDesc :=
  ⟨fun _ _ _ h1 h2 => Nat.le_trans h2 h1⟩

/-- The rows matched by the optional status filter of
`TaskRepository.get_all` / `TaskRepository.count`. -/
def matching (db : List Task) (status : Option TaskStatus) : List Task :=
  match status with
  | some st => db.filter (fun t => t.status = st)
  | none => db

/-- `TaskRepository.get_all` from
`board_service/repositories/task_repository.py` lines 68-107: SQL
semantics of `SELECT ... [WHERE status = st] ORDER BY created_at DESC
LIMIT limit OFFSET skip` — ordering applies to the filtered rows first,
then the offset, then the limit. -/
def get_all (db : List Task) (status : Option TaskStatus) (skip limit : Nat) :
    List Task :=
  (((matching db status).insertionSort createdDesc).drop skip).take limit

/-- `TaskRepository.count`: `SELECT count(id) [WHERE status = st]`,
ignoring pagination. -/
def count (db : List Task) (status : Option TaskStatus) : Nat :=
  (matching db status).length

/-- In-memory state of `WebSocketManager`
(`board_service/services/websocket_manager.py`): the set
`active_connections` of websockets (modelled as naturals) and the dict
`connection_ids` from client identifier to websocket. -/
structure WSManager where
  active_connections : Finset Nat
  connection_ids : List (String × Nat)
deriving DecidableEq

/-- The freshly constructed manager: empty set, empty dict. -/
def WSManager.init : WSManager :=
  { active_connections := ∅, connection_ids := [] }

/-- `WebSocketManager.connect`: `active_connections.add(websocket)` and
`connection_ids[client_id] = websocket`. -/
def connect (m : WSManager) (websocket : Nat) (client_id : String) : WSManager :=
  { active_connections := insert websocket m.active_connections
    connection_ids := dictSet client_id websocket m.connection_ids }

/-- `WebSocketManager.disconnect`: `active_connections.discard(websocket)`
and `connection_ids.pop(client_id, None)`. -/
def disconnect (m : WSManager) (websocket : Nat) (client_id : String) : WSManager :=
  { active_connections := m.active_connections.erase websocket
    connection_ids := dictPop client_id m.connection_ids }

/-- `WebSocketManager.connection_count`: `len(active_connections)`. -/
def connection_count (m : WSManager) : Nat :=
  m.active_connections.card

/-- One call of the manager's registration interface. -/
inductive WSOp where
  | connect (websocket : Nat) (client_id : String)
  | disconnect (websocket : Nat) (client_id : String)
deriving DecidableEq, Repr

/-- Apply one call to the manager state. -/
def wsStep (m : WSManager) : WSOp → WSManager
  | .connect ws cid => connect m ws cid
  | .disconnect ws cid => disconnect m ws cid

/-- Apply a sequence of calls in order. -/
def wsRun (m : WSManager) (ops : List WSOp) : WSManager :=
  ops.foldl wsStep m

/-- The two-structure consistency invariant claimed for the manager:
client ids are unique, no websocket has two dict entries, and the
websockets registered in the dict are exactly the members of the set
(so each set member has exactly one dict entry and vice versa). -/
def wsInv (m : WSManager) : Prop :=
  (m.connection_ids.map Prod.fst).Nodup ∧
  (m.connection_ids.map Prod.snd).Nodup ∧
  m.active_connections = (m.connection_ids.map Prod.snd).toFinset

instance (m : WSManager) : Decidable (wsInv m) := by
  unfold wsInv; infer_instance

/-- Precondition making one call well-matched: a connect must use a
websocket and a client id that are not currently registered, and a
disconnect must name a currently registered pair (or a fully
unregistered one, in which case it is a no-op). -/
def goodOp (m : WSManager) : WSOp → Prop
  | .connect ws cid =>
      ws ∉ m.active_connections ∧ dictGet cid m.connection_ids = none
  | .disconnect ws cid =>
      dictGet cid m.connection_ids = some ws ∨
        (dictGet cid m.connection_ids = none ∧ ws ∉ m.active_connections)

instance (m : WSManager) (op : WSOp) : Decidable (goodOp m op) := by
  cases op <;> (unfold goodOp; infer_instance)

/-- Every call of the sequence is well-matched in the state it runs in. -/
def goodSeq : WSManager → List WSOp → Prop
  | _, [] => True
  | m, op :: ops => goodOp m op ∧ goodSeq (wsStep m op) ops

instance : (m : WSManager) → (ops : List WSOp) → Decidable (goodSeq m ops)
  | _, [] => .isTrue trivial
  | m, op :: ops =>
      have : Decidable (goodSeq (wsStep m op) ops) := instDecidableGoodSeq _ _
      inferInstanceAs (Decidable (goodOp m op ∧ goodSeq (wsStep m op) ops))

/-- The message-stamping step at the top of `WebSocketManager.broadcast`
(`board_service/services/websocket_manager.py` lines 54-64): if the
message dict has no `"timestamp"` key, set `message["timestamp"]` to the
current time; the caller keeps the same (possibly mutated) dict. -/
def broadcastStamp {V : Type} (now : V) (message : List (String × V)) :
    List (String × V) :=
  if (dictGet "timestamp" message).isNone then
    dictSet "timestamp" now message
  else
    message

end Kanban.Board

namespace Kanban.FileSvc

/-- Index of the last occurrence of a character, if any (CPython
`str.rfind` returning an index, with `none` for `-1`). -/
def lastIndexOf (c : Char) : List Char → Option Nat
  | [] => none
  | x :: xs =>
    match lastIndexOf c xs with
    | some i => some (i + 1)
    | none => if x = c then some 0 else none

/-- CPython `posixpath.splitext` (`genericpath._splitext` with `sep='/'`,
`extsep='.'`): the suffix starting at the last dot is the extension only
if some character strictly between the last path separator and that dot
is not itself a dot; otherwise the extension is empty. -/
def splitext (p : List Char) : List Char × List Char :=
  let sepIndex : Int :=
    match lastIndexOf '/' p with
    | some i => (i : Int)
    | none => -1
  match lastIndexOf '.' p with
  | none => (p, [])
  | some dotIndex =>
    if sepIndex < (dotIndex : Int) then
      if (List.range dotIndex).any
          (fun j => decide (sepIndex + 1 ≤ (j : Int)) && (p.getD j '.' != '.')) then
        (p.take dotIndex, p.drop dotIndex)
      else
        (p, [])
    else
      (p, [])

/-- The file-service settings the upload path reads
(`file_service/core/config.py`). -/
structure Config where
  allowed_extensions : List String
  max_file_size_mb : Nat
deriving Repr

/-- `Settings.max_file_size_bytes`: `max_file_size_mb * 1024 * 1024`. -/
def max_file_size_bytes (cfg : Config) : Nat :=
  cfg.max_file_size_mb * 1024 * 1024

/-- The default settings values from `file_service/core/config.py`. -/
def defaultConfig : Config :=
  { allowed_extensions :=
      [".pdf", ".doc", ".docx", ".txt",
       ".jpg", ".jpeg", ".png", ".gif",
       ".zip", ".rar", ".xlsx", ".xls"]
    max_file_size_mb := 10 }

/-- `FileService._validate_file_extension`:
`os.path.splitext(filename)[1].lower() in settings.allowed_extensions`. -/
def validate_file_extension (cfg : Config) (filename : String) : Bool :=
  let ext := String.mk ((splitext filename.data).2.map Char.toLower)
  cfg.allowed_extensions.contains ext

/-- `FileService._validate_file_size`:
`size_bytes <= settings.max_file_size_bytes`. -/
def validate_file_size (cfg : Config) (size_bytes : Nat) : Bool :=
  size_bytes ≤ max_file_size_bytes cfg

/-- A `files` table row from `file_service/models/file.py` (timestamps as
naturals). -/
structure FileRecord where
  id : Nat
  task_id : Nat
  filename : String
  file_key : String
  content_type : String
  size_bytes : Nat
  uploaded_at : Nat
deriving DecidableEq, Repr

/-- Combined state of the file service: the object store (key to bytes)
and the metadata table. -/
structure FSState where
  storage : List (String × List Nat)
  records : List FileRecord
deriving DecidableEq, Repr

/-- The file the client sends: name, declared content type, bytes. -/
structure UploadFile where
  filename : String
  content_type : String
  content : List Nat
deriving DecidableEq, Repr

/-- `S3Service._generate_file_key`:
`f"tasks/{task_id}/{unique_id}_{filename.replace(' ', '_')}"`, with the
generated UUID passed in as `unique_id`. -/
def generate_file_key (task_id : Nat) (unique_id : String) (filename : String) :
    String :=
  "tasks/" ++ toString task_id ++ "/" ++ unique_id ++ "_"
    ++ (filename.replace " " "_")

/-- `FileService.upload_file` from
`file_service/services/file_service.py` lines 68-125: reject on the
extension check (raising the allow-list error), else read the content
and measure it, reject on the size check (raising the megabyte-limit
error), else write the object to storage under the generated key and
append the metadata record.  A rejection returns the state unchanged. -/
def upload_file (cfg : Config) (s : FSState) (file : UploadFile)
    (task_id : Nat) (uploaded_at : Nat) (unique_id : String) (new_id : Nat) :
    FSState × Except String FileRecord :=
  if ¬ validate_file_extension cfg file.filename then
    (s, .error ("File extension not allowed. Allowed extensions: "
        ++ String.intercalate ", " cfg.allowed_extensions))
  else
    let file_content := file.content
    let file_size := file_content.length
    if ¬ validate_file_size cfg file_size then
      (s, .error ("File size exceeds maximum limit of "
          ++ toString cfg.max_file_size_mb ++ " MB"))
    else
      let file_key := generate_file_key task_id unique_id file.filename
      let file_record : FileRecord :=
        { id := new_id
          task_id := task_id
          filename := file.filename
          file_key := file_key
          content_type := file.content_type
          size_bytes := file_size
          uploaded_at := uploaded_at }
      ({ storage := dictSet file_key file_content s.storage
         records := s.records ++ [file_record] }, .ok file_record)

/-- `FileRepository.get_by_id`: the row whose primary key matches. -/
def file_get_by_id (records : List FileRecord) (file_id : Nat) : Option FileRecord :=
  records.find? (fun r => r.id = file_id)

/-- Ordering used by `FileRepository.get_by_task_id`: `uploaded_at`
descending. -/
def uploadedDesc (a b : FileRecord) : Prop := b.uploaded_at ≤ a.uploaded_at

instance : DecidableRel uploadedDesc := fun a b =>
  inferInstanceAs (Decidable (b.uploaded_at ≤ a.uploaded_at))

instance : IsTotal FileRecord uploadedDesc :=
  ⟨fun a b => Nat.le_total b.uploaded_at a.uploaded_at⟩

instance : IsTrans FileRecord uploadedDesc :=
  ⟨fun _ _ _ h1 h2 => Nat.le_trans h2 h1⟩

/-- `FileRepository.get_by_task_id`: the rows whose `task_id` matches,
ordered by `uploaded_at` descending. -/
def get_by_task_id (records : List FileRecord) (task_id : Nat) : List FileRecord :=
  (records.filter (fun r => r.task_id = task_id)).insertionSort uploadedDesc

/-- `FileRepository.delete_by_task_id` from
`file_service/repositories/file_repository.py` lines 141-157: load the
matching rows, count them, delete each, return the count. -/
def delete_by_task_id (records : List FileRecord) (task_id : Nat) :
    List FileRecord × Nat :=
  (records.filter (fun r => ¬ r.task_id = task_id),
   (get_by_task_id records task_id).length)

/-- Outcome of the underlying `delete_object` storage call: success, or a
storage-level `ClientError`. -/
inductive S3DeleteOutcome where
  | success
  | clientError (msg : String)
deriving DecidableEq, Repr

/-- `S3Service.delete_file` from
`file_service/services/s3_service.py` lines 116-133: `try` the object
deletion and return `True`; a `ClientError` is logged and converted to a
`False` return rather than propagated. -/
def s3_delete_file (outcome : S3DeleteOutcome) : Bool :=
  match outcome with
  | .success => true
  | .clientError _ => false

/-- Effect of the object-store deletion on storage: the key disappears on
success and survives a `ClientError`. -/
def s3_delete_effect (outcome : S3DeleteOutcome) (file_key : String)
    (storage : List (String × List Nat)) : List (String × List Nat) :=
  match outcome with
  | .success => dictPop file_key storage
  | .clientError _ => storage

/-- `FileService.delete_file` from
`file_service/services/file_service.py` lines 187-206: load the record
(report `false` if absent), call the storage deletion without checking
its boolean result, then delete the metadata row and report `true`. -/
def delete_file (s : FSState) (outcome : S3DeleteOutcome) (file_id : Nat) :
    FSState × Bool :=
  match file_get_by_id s.records file_id with
  | none => (s, false)
  | some file_record =>
    let storage1 := s3_delete_effect outcome file_record.file_key s.storage
    ({ storage := storage1
       records := s.records.eraseP (fun r => r.id = file_id) }, true)

/-- `FileService.delete_files_by_task` from
`file_service/services/file_service.py` lines 208-228: load the matching
records, delete each object sequentially (individual outcomes given by
`outcome`, failures ignored), then bulk-delete the metadata rows and
return that count. -/
def delete_files_by_task (s : FSState) (outcome : String → S3DeleteOutcome)
    (task_id : Nat) : FSState × Nat :=
  let files := get_by_task_id s.records task_id
  let storage1 := files.foldl
    (fun st f => s3_delete_effect (outcome f.file_key) f.file_key st) s.storage
  let (records1, cnt) := delete_by_task_id s.records task_id
  ({ storage := storage1, records := records1 }, cnt)

/-- An HTTP response: status code, body bytes, and headers. -/
structure HttpResponse where
  status : Nat
  body : List Nat
  headers : List (String × String)
deriving DecidableEq, Repr

/-- GET `/files/{id}/download` from `file_service/api/files.py` lines
161-199 over `FileService.download_file`: 404 when the metadata row is
absent; otherwise fetch the object from storage (a missing object raises
a storage `ClientError`, modelled as `.error`) and return 200 with the
object bytes, a `Content-Disposition` attachment header naming the
stored filename, and a `Content-Length` header of the stored
`size_bytes`. -/
def download_file_endpoint (s : FSState) (file_id : Nat) :
    Except String HttpResponse :=
  match file_get_by_id s.records file_id with
  | none =>
    .ok { status := 404, body := [], headers := [] }
  | some file_record =>
    match dictGet file_record.file_key s.storage with
    | none => .error "ClientError: NoSuchKey"
    | some file_content =>
      .ok { status := 200
            body := file_content
            headers :=
              [("Content-Disposition",
                "attachment; filename=\x22" ++ file_record.filename ++ "\x22"),
               ("Content-Length", toString file_record.size_bytes)] }

/-- Consistency of the file-service state as maintained by its own
operations: every metadata row points at a stored object whose byte
count equals the recorded `size_bytes`. -/
def sizeConsistent (s : FSState) : Prop :=
  ∀ r ∈ s.records, ∃ c, dictGet r.file_key s.storage = some c ∧
    c.length = r.size_bytes

end Kanban.FileSvc

namespace Kanban

theorem dictGet_nil {K V : Type} [DecidableEq K] {k : K} :
    dictGet (V := V) k [] = none := rfl

theorem dictGet_cons {K V : Type} [DecidableEq K] {k : K} {p : K × V}
    {rest : List (K × V)} :
    dictGet k (p :: rest) = if p.1 = k then some p.2 else dictGet k rest := by
  unfold dictGet
  rw [List.find?_cons]
  by_cases h : p.1 = k
  · simp [h]
  · simp [h]

theorem dictGet_eq_none_iff {K V : Type} [DecidableEq K] {k : K}
    {d : List (K × V)} :
    dictGet k d = none ↔ ∀ p ∈ d, p.1 ≠ k := by
  induction d with
  | nil => simp [dictGet_nil]
  | cons p rest ih =>
    rw [dictGet_cons]
    by_cases h : p.1 = k
    · simp [h]
    · simp [h, ih]

theorem dictSet_of_get_none {K V : Type} [DecidableEq K] {k : K} {v : V}
    {d : List (K × V)} (h : dictGet k d = none) :
    dictSet k v d = d ++ [(k, v)] := by
  induction d with
  | nil => rfl
  | cons p rest ih =>
    rw [dictGet_cons] at h
    by_cases hp : p.1 = k
    · simp [hp] at h
    · simp [hp] at h
      simp [dictSet, hp, ih h]

theorem dictPop_of_get_none {K V : Type} [DecidableEq K] {k : K}
    {d : List (K × V)} (h : dictGet k d = none) :
    dictPop k d = d := by
  induction d with
  | nil => rfl
  | cons p rest ih =>
    rw [dictGet_cons] at h
    by_cases hp : p.1 = k
    · simp [hp] at h
    · simp [hp] at h
      simp [dictPop, hp, ih h]

theorem dictGet_dictSet_self {K V : Type} [DecidableEq K] {k : K} {v : V}
    {d : List (K × V)} :
    dictGet k (dictSet k v d) = some v := by
  induction d with
  | nil => simp [dictSet, dictGet_cons]
  | cons p rest ih =>
    by_cases hp : p.1 = k
    · simp [dictSet, hp, dictGet_cons]
    · simp [dictSet, hp, dictGet_cons, ih]

theorem dictGet_dictSet_ne {K V : Type} [DecidableEq K] {k k' : K} {v : V}
    {d : List (K × V)} (h : k' ≠ k) :
    dictGet k' (dictSet k v d) = dictGet k' d := by
  have hne : ¬ k = k' := fun hkk => h hkk.symm
  induction d with
  | nil => simp [dictSet, dictGet_cons, dictGet_nil, hne]
  | cons p rest ih =>
    by_cases hp : p.1 = k
    · subst hp
      simp [dictSet, dictGet_cons, hne]
    · simp [dictSet, hp, dictGet_cons, ih]

theorem dictGet_some_decomp {K V : Type} [DecidableEq K] {k : K} {v : V}
    {d : List (K × V)} (h : dictGet k d = some v) :
    ∃ d₁ d₂, d = d₁ ++ (k, v) :: d₂ ∧ (∀ p ∈ d₁, p.1 ≠ k) ∧
      dictPop k d = d₁ ++ d₂ := by
  induction d with
  | nil => simp [dictGet_nil] at h
  | cons p rest ih =>
    rw [dictGet_cons] at h
    by_cases hp : p.1 = k
    · simp [hp] at h
      refine ⟨[], rest, ?_, by simp, ?_⟩
      · obtain ⟨p1, p2⟩ := p
        simp at hp h
        simp [hp, h]
      · simp [dictPop, hp]
    · simp [hp] at h
      obtain ⟨d₁, d₂, hd, hkeys, hpop⟩ := ih h
      refine ⟨p :: d₁, d₂, by simp [hd], ?_, ?_⟩
      · intro q hq
        rcases List.mem_cons.mp hq with rfl | hq
        · exact hp
        · exact hkeys q hq
      · simp [dictPop, hp, hpop]

end Kanban

namespace Kanban.Board

theorem task_get_by_id_eraseP_eq_none {db : List Task} {task_id : Nat}
    (hids : (db.map Task.id).Nodup) :
    task_get_by_id (db.eraseP (fun t => t.id = task_id)) task_id = none := by
  induction db with
  | nil => rfl
  | cons a l ih =>
    simp only [List.map_cons, List.nodup_cons] at hids
    obtain ⟨hnotin, hl⟩ := hids
    by_cases ha : a.id = task_id
    · rw [List.eraseP_cons_of_pos (by simp [ha])]
      simp only [task_get_by_id, List.find?_eq_none]
      intro t ht
      simp only [decide_eq_true_eq]
      intro hid
      exact hnotin (by
        rw [ha, ← hid] at hnotin ⊢
        exact List.mem_map_of_mem Task.id ht)
    · rw [List.eraseP_cons_of_neg (by simp [ha])]
      simp only [task_get_by_id] at ih ⊢
      rw [List.find?_cons]
      rw [decide_eq_false ha]
      exact ih hl

/-- C1 (amended): for a PUT `/tasks/{id}` partial update of an existing
task, an absent field leaves the stored value unchanged, and an explicit
`null` is likewise skipped (it parses to the same `None` as an absent
key); a present non-null value — including a present-but-empty
description — is honored as a real overwrite. -/
theorem C1_partial_update_amended (db : List Task) (task_id : Nat)
    (body : TaskUpdateBody) (t : Task)
    (h : task_get_by_id db task_id = some t) :
    ∃ db' t', update_task_endpoint db task_id body = some (db', t') ∧
      (body.title = .absent ∨ body.title = .null → t'.title = t.title) ∧
      (∀ s, body.title = .present s → t'.title = s) ∧
      (body.description = .absent ∨ body.description = .null →
        t'.description = t.description) ∧
      (∀ s, body.description = .present s → t'.description = some s) ∧
      (body.status = .absent ∨ body.status = .null → t'.status = t.status) ∧
      (∀ v, body.status = .present v → t'.status = v) := by
  obtain ⟨bt, bd, bs⟩ := body
  cases bt <;> cases bd <;> cases bs <;>
    simp [update_task_endpoint, update_task, parseTaskUpdate, h] <;>
    refine ⟨_, _, ⟨rfl, rfl⟩, ?_, ?_, ?_⟩ <;> simp

/-- C1 counterexample: a request body whose `description` key is present
with an explicit `null` does not overwrite the stored description — the
task keeps `some "old"` instead of being cleared — refuting the claim
that explicit null is honored as a real overwrite. -/
theorem C1_null_description_not_overwritten :
    (update_task_endpoint
        [{ id := 1, title := "T", description := some "old",
           status := .todo, created_at := 0, updated_at := 0 }] 1
        { title := .absent, description := .null, status := .absent }).map
      (fun r => r.2.description) = some (some "old") ∧
    (update_task_endpoint
        [{ id := 1, title := "T", description := some "old",
           status := .todo, created_at := 0, updated_at := 0 }] 1
        { title := .absent, description := .null, status := .absent }).map
      (fun r => r.2.description) ≠ some none := by
  decide

/-- C1 witness: on a concrete task, updating with a body whose only
present field is an empty-string description overwrites the stored
description with `""`. -/
theorem C1_partial_update_amended_witness :
    task_get_by_id
        [{ id := 1, title := "T", description := some "old",
           status := .todo, created_at := 0, updated_at := 0 }] 1 =
      some { id := 1, title := "T", description := some "old",
             status := .todo, created_at := 0, updated_at := 0 } ∧
    ∃ db' t',
      update_task_endpoint
          [{ id := 1, title := "T", description := some "old",
             status := .todo, created_at := 0, updated_at := 0 }] 1
          { title := .absent, description := .present "", status := .absent } =
        some (db', t') ∧
      ((TaskUpdateBody.title
          { title := .absent, description := .present "", status := .absent }
            = .absent ∨
        TaskUpdateBody.title
          { title := .absent, description := .present "", status := .absent }
            = .null) → t'.title = "T") ∧
      (∀ s, TaskUpdateBody.title
          { title := .absent, description := .present "", status := .absent }
            = .present s → t'.title = s) ∧
      ((TaskUpdateBody.description
          { title := .absent, description := .present "", status := .absent }
            = .absent ∨
        TaskUpdateBody.description
          { title := .absent, description := .present "", status := .absent }
            = .null) → t'.description = some "old") ∧
      (∀ s, TaskUpdateBody.description
          { title := .absent, description := .present "", status := .absent }
            = .present s → t'.description = some s) ∧
      ((TaskUpdateBody.status
          { title := .absent, description := .present "", status := .absent }
            = .absent ∨
        TaskUpdateBody.status
          { title := .absent, description := .present "", status := .absent }
            = .null) → t'.status = TaskStatus.todo) ∧
      (∀ v, TaskUpdateBody.status
          { title := .absent, description := .present "", status := .absent }
            = .present v → t'.status = v) :=
  ⟨by decide,
   C1_partial_update_amended _ 1
     { title := .absent, description := .present "", status := .absent }
     { id := 1, title := "T", description := some "old",
       status := .todo, created_at := 0, updated_at := 0 }
     (by decide)⟩

/-- C2: for an existing task id, `delete_task` returns success and the
erased table no matter how the cross-service file-cleanup call turned
out: the guarded `_delete_task_files` call always returns normally, the
task row is gone from a subsequent lookup, and the overall result is
identical to the one with a successful cleanup call. -/
theorem C2_delete_task_fire_and_forget (db : List Task)
    (cleanup : Except String Unit) (task_id : Nat)
    (hexists : (task_get_by_id db task_id).isSome)
    (hids : (db.map Task.id).Nodup) :
    delete_task db cleanup task_id =
      .ok (db.eraseP (fun t => t.id = task_id), true) ∧
    delete_task_files cleanup = .ok () ∧
    delete_task db cleanup task_id = delete_task db (.ok ()) task_id ∧
    task_get_by_id (db.eraseP (fun t => t.id = task_id)) task_id = none := by
  obtain ⟨t, ht⟩ := Option.isSome_iff_exists.mp hexists
  have hfiles : delete_task_files cleanup = .ok () := by
    cases cleanup <;> rfl
  have hdel : delete_task db cleanup task_id =
      .ok (db.eraseP (fun t => t.id = task_id), true) := by
    unfold delete_task
    rw [ht, hfiles]
    rfl
  refine ⟨hdel, hfiles, ?_, task_get_by_id_eraseP_eq_none hids⟩
  rw [hdel]
  unfold delete_task
  rw [ht]
  rfl

/-- C2 witness: a concrete two-task table, a failing cleanup call. -/
theorem C2_delete_task_fire_and_forget_witness :
    (task_get_by_id
        [{ id := 1, title := "A", description := none, status := .todo,
           created_at := 0, updated_at := 0 },
         { id := 2, title := "B", description := none, status := .done,
           created_at := 1, updated_at := 1 }] 2).isSome ∧
    (([{ id := 1, title := "A", description := none, status := .todo,
         created_at := 0, updated_at := 0 },
       { id := 2, title := "B", description := none, status := .done,
         created_at := 1, updated_at := 1 }] : List Task).map Task.id).Nodup ∧
    (delete_task
        [{ id := 1, title := "A", description := none, status := .todo,
           created_at := 0, updated_at := 0 },
         { id := 2, title := "B", description := none, status := .done,
           created_at := 1, updated_at := 1 }]
        (.error "connection refused") 2 =
      .ok (([{ id := 1, title := "A", description := none, status := .todo,
               created_at := 0, updated_at := 0 },
             { id := 2, title := "B", description := none, status := .done,
               created_at := 1, updated_at := 1 }] : List Task).eraseP
              (fun t => t.id = 2), true) ∧
     delete_task_files (.error "connection refused") = .ok () ∧
     delete_task
        [{ id := 1, title := "A", description := none, status := .todo,
           created_at := 0, updated_at := 0 },
         { id := 2, title := "B", description := none, status := .done,
           created_at := 1, updated_at := 1 }]
        (.error "connection refused") 2 =
       delete_task
        [{ id := 1, title := "A", description := none, status := .todo,
           created_at := 0, updated_at := 0 },
         { id := 2, title := "B", description := none, status := .done,
           created_at := 1, updated_at := 1 }]
        (.ok ()) 2 ∧
     task_get_by_id
        (([{ id := 1, title := "A", description := none, status := .todo,
             created_at := 0, updated_at := 0 },
           { id := 2, title := "B", description := none, status := .done,
             created_at := 1, updated_at := 1 }] : List Task).eraseP
            (fun t => t.id = 2)) 2 = none) :=
  ⟨by decide, by decide,
   C2_delete_task_fire_and_forget _ (.error "connection refused") 2
     (by decide) (by decide)⟩

/-- C7: a task listing is sorted by `created_at` descending; the offset
is applied before the limit to that ordered result (so a paginated page
is the `skip`-drop of the unpaginated prefix of length `skip + limit`);
and `count` reports the full matching cardinality, equal to the length
of the listing with the pagination window wide open. -/
theorem C7_get_all_pagination (db : List Task) (status : Option TaskStatus)
    (skip limit : Nat) :
    List.Sorted createdDesc (get_all db status skip limit) ∧
    get_all db status skip limit =
      (get_all db status 0 (skip + limit)).drop skip ∧
    count db status = (get_all db status 0 db.length).length := by
  refine ⟨?_, ?_, ?_⟩
  · exact List.Pairwise.sublist
      ((List.take_sublist _ _).trans (List.drop_sublist _ _))
      (List.sorted_insertionSort createdDesc _)
  · unfold get_all
    rw [List.drop_zero, List.drop_take, Nat.add_sub_cancel_left]
  · have hlen : ((matching db status).insertionSort createdDesc).length
        ≤ db.length := by
      rw [List.length_insertionSort]
      cases status with
      | none => exact Nat.le_refl _
      | some st =>
        simpa [matching] using
          List.length_filter_le (fun t => decide (t.status = st)) db
    unfold count get_all
    rw [List.drop_zero, List.take_of_length_le hlen, List.length_insertionSort]

theorem wsInv_step {m : WSManager} {op : WSOp} (hm : wsInv m)
    (hop : goodOp m op) : wsInv (wsStep m op) := by
  obtain ⟨hkeys, hvals, hset⟩ := hm
  cases op with
  | connect ws cid =>
    obtain ⟨hws, hcid⟩ := hop
    have happ : dictSet cid ws m.connection_ids
        = m.connection_ids ++ [(cid, ws)] := dictSet_of_get_none hcid
    have hcidkeys : cid ∉ m.connection_ids.map Prod.fst := by
      intro hmem
      obtain ⟨p, hp, hpk⟩ := List.mem_map.mp hmem
      exact (dictGet_eq_none_iff.mp hcid p hp) hpk
    have hwsvals : ws ∉ m.connection_ids.map Prod.snd := by
      intro hmem
      apply hws
      rw [hset]
      exact List.mem_toFinset.mpr hmem
    simp only [wsStep, connect, wsInv]
    refine ⟨?_, ?_, ?_⟩
    · rw [happ]
      simp [List.nodup_append, hkeys, hcidkeys]
    · rw [happ]
      simp [List.nodup_append, hvals, hwsvals]
    · rw [happ, hset]
      simp only [List.map_append, List.map_cons, List.map_nil,
        List.toFinset_append]
      rw [Finset.insert_eq, Finset.union_comm]
      simp
  | disconnect ws cid =>
    cases hop with
    | inl hget =>
      obtain ⟨d₁, d₂, hd, hk1, hpop⟩ := dictGet_some_decomp hget
      have hsub : (d₁ ++ d₂).Sublist (d₁ ++ (cid, ws) :: d₂) :=
        List.Sublist.append_left (List.sublist_cons_self _ _) d₁
      have hdsub : (d₁ ++ d₂).Sublist m.connection_ids := by
        rw [hd]; exact hsub
      have hvals' : ((d₁.map Prod.snd) ++ ws :: (d₂.map Prod.snd)).Nodup := by
        rw [hd] at hvals
        simpa using hvals
      rw [List.nodup_append] at hvals'
      obtain ⟨hA, hwsB', hdisj⟩ := hvals'
      rw [List.nodup_cons] at hwsB'
      obtain ⟨hwsB, hB⟩ := hwsB'
      have hwsA : ws ∉ d₁.map Prod.snd :=
        fun h => hdisj h (List.mem_cons_self ws _)
      simp only [wsStep, disconnect, wsInv]
      rw [hpop]
      refine ⟨?_, ?_, ?_⟩
      · exact List.Nodup.sublist (hdsub.map Prod.fst) hkeys
      · exact List.Nodup.sublist (hdsub.map Prod.snd) hvals
      · rw [hset, hd]
        simp only [List.map_append, List.map_cons]
        ext x
        simp only [Finset.mem_erase, List.mem_toFinset, List.mem_append,
          List.mem_cons]
        constructor
        · rintro ⟨hne, hx | rfl | hx⟩
          · exact Or.inl hx
          · exact absurd rfl hne
          · exact Or.inr hx
        · rintro (hx | hx)
          · exact ⟨fun he => hwsA (he ▸ hx), Or.inl hx⟩
          · exact ⟨fun he => hwsB (he ▸ hx), Or.inr (Or.inr hx)⟩
    | inr h =>
      obtain ⟨hget, hws⟩ := h
      simp only [wsStep, disconnect, wsInv]
      rw [dictPop_of_get_none hget, Finset.erase_eq_of_not_mem hws]
      exact ⟨hkeys, hvals, hset⟩

theorem wsInv_run {m : WSManager} {ops : List WSOp} (hm : wsInv m)
    (hops : goodSeq m ops) : wsInv (wsRun m ops) := by
  induction ops generalizing m with
  | nil => exact hm
  | cons op ops ih =>
    obtain ⟨hop, hops'⟩ := hops
    exact ih (wsInv_step hm hop) hops'

/-- C3 (amended): starting from a consistent manager state, any sequence
of connect/disconnect calls in which each connect registers a fresh
websocket under a fresh client id and each disconnect names a currently
registered pair (or a fully unregistered one) keeps the connection set
and the id mapping in bijection, and `connection_count` equals the set's
cardinality throughout. -/
theorem C3_registry_invariant (m : WSManager) (ops : List WSOp)
    (hm : wsInv m) (hops : goodSeq m ops) :
    wsInv (wsRun m ops) ∧
    connection_count (wsRun m ops) = (wsRun m ops).active_connections.card :=
  ⟨wsInv_run hm hops, rfl⟩

/-- C3 counterexample: connecting two distinct websockets under the same
client id (a repeated identifier, which the claim explicitly includes)
leaves websocket 1 in the connection set with no entry in the id
mapping, so the claimed set-mapping bijection fails. -/
theorem C3_duplicate_client_id_breaks_invariant :
    ¬ wsInv (wsRun WSManager.init
      [.connect 1 "a", .connect 2 "a"]) := by
  decide

/-- C3 witness: a concrete well-matched sequence — two fresh connects and
one registered disconnect — for which the invariant and the count
equality hold. -/
theorem C3_registry_invariant_witness :
    wsInv WSManager.init ∧
    goodSeq WSManager.init
      [.connect 1 "a", .connect 2 "b", .disconnect 1 "a"] ∧
    (wsInv (wsRun WSManager.init
        [.connect 1 "a", .connect 2 "b", .disconnect 1 "a"]) ∧
     connection_count (wsRun WSManager.init
        [.connect 1 "a", .connect 2 "b", .disconnect 1 "a"]) =
       (wsRun WSManager.init
        [.connect 1 "a", .connect 2 "b", .disconnect 1 "a"]).active_connections.card) :=
  ⟨by decide, by decide,
   C3_registry_invariant WSManager.init
     [.connect 1 "a", .connect 2 "b", .disconnect 1 "a"]
     (by decide) (by decide)⟩

/-- C9: if the message dict lacks a `"timestamp"` key, `broadcast`
leaves the caller holding the same dict extended in place with one; the
stamped dict then maps `"timestamp"` to the stamp.  If a timestamp key
is already present (whatever its value), the dict is returned entirely
untouched. -/
theorem C9_broadcast_timestamp {V : Type} (now : V)
    (message : List (String × V)) :
    (dictGet "timestamp" message = none →
      broadcastStamp now message = message ++ [("timestamp", now)] ∧
      dictGet "timestamp" (broadcastStamp now message) = some now) ∧
    (∀ v, dictGet "timestamp" message = some v →
      broadcastStamp now message = message) := by
  constructor
  · intro h
    have happ := dictSet_of_get_none (v := now) h
    constructor
    · simp [broadcastStamp, h, happ]
    · simp [broadcastStamp, h, dictGet_dictSet_self]
  · intro v h
    simp [broadcastStamp, h]

/-- C9 witness: a concrete message without a timestamp gets one appended
and readable; a concrete message with one is returned unchanged. -/
theorem C9_broadcast_timestamp_witness :
    (dictGet "timestamp" [("type", "task_created")] = none ∧
     broadcastStamp "2024-01-01T00:00:00" [("type", "task_created")] =
       [("type", "task_created"), ("timestamp", "2024-01-01T00:00:00")] ∧
     dictGet "timestamp"
       (broadcastStamp "2024-01-01T00:00:00" [("type", "task_created")]) =
       some "2024-01-01T00:00:00") ∧
    (dictGet "timestamp" [("timestamp", "t0")] = some "t0" ∧
     broadcastStamp "2024-01-01T00:00:00" [("timestamp", "t0")] =
       [("timestamp", "t0")]) := by
  refine ⟨⟨by decide, ?_, ?_⟩, ⟨by decide, ?_⟩⟩
  · exact ((C9_broadcast_timestamp "2024-01-01T00:00:00"
      [("type", "task_created")]).1 (by decide)).1
  · exact ((C9_broadcast_timestamp "2024-01-01T00:00:00"
      [("type", "task_created")]).1 (by decide)).2
  · exact (C9_broadcast_timestamp "2024-01-01T00:00:00"
      [("timestamp", "t0")]).2 "t0" (by decide)

end Kanban.Board

namespace Kanban.FileSvc

/-- C4: a rejected upload performs no object-store write and creates no
metadata record — the state comes back exactly as it went in — and the
error names the allow-list (extension failure) or the configured
megabyte limit (size failure).  A bad extension is rejected with the
extension error unconditionally, before the content's size matters;
the size check runs on the measured byte count of the content. -/
theorem C4_upload_validation (cfg : Config) (s : FSState) (file : UploadFile)
    (task_id uploaded_at : Nat) (unique_id : String) (new_id : Nat) :
    (validate_file_extension cfg file.filename = false →
      upload_file cfg s file task_id uploaded_at unique_id new_id =
        (s, .error ("File extension not allowed. Allowed extensions: "
            ++ String.intercalate ", " cfg.allowed_extensions))) ∧
    (validate_file_extension cfg file.filename = true →
      validate_file_size cfg file.content.length = false →
      upload_file cfg s file task_id uploaded_at unique_id new_id =
        (s, .error ("File size exceeds maximum limit of "
            ++ toString cfg.max_file_size_mb ++ " MB"))) := by
  constructor
  · intro h
    simp [upload_file, h]
  · intro h1 h2
    simp [upload_file, h1, h2]

/-- C4 witness: with a one-extension allow-list and a zero-megabyte
limit, a `.txt` upload is rejected with the allow-list error and a
one-byte `.pdf` upload is rejected with the size error, both leaving
the empty state empty. -/
theorem C4_upload_validation_witness :
    (validate_file_extension ⟨[".pdf"], 0⟩ "notes.txt" = false ∧
     upload_file ⟨[".pdf"], 0⟩ ⟨[], []⟩ ⟨"notes.txt", "text/plain", [0]⟩
         1 0 "u" 1 =
       (⟨[], []⟩, .error ("File extension not allowed. Allowed extensions: "
           ++ String.intercalate ", " [".pdf"]))) ∧
    (validate_file_extension ⟨[".pdf"], 0⟩ "a.pdf" = true ∧
     validate_file_size ⟨[".pdf"], 0⟩ ([0] : List Nat).length = false ∧
     upload_file ⟨[".pdf"], 0⟩ ⟨[], []⟩ ⟨"a.pdf", "application/pdf", [0]⟩
         1 0 "u" 1 =
       (⟨[], []⟩, .error ("File size exceeds maximum limit of "
           ++ toString (0 : Nat) ++ " MB"))) := by
  refine ⟨⟨by decide, ?_⟩, ⟨by decide, by decide, ?_⟩⟩
  · exact (C4_upload_validation ⟨[".pdf"], 0⟩ ⟨[], []⟩
      ⟨"notes.txt", "text/plain", [0]⟩ 1 0 "u" 1).1 (by decide)
  · exact (C4_upload_validation ⟨[".pdf"], 0⟩ ⟨[], []⟩
      ⟨"a.pdf", "application/pdf", [0]⟩ 1 0 "u" 1).2 (by decide) (by decide)

/-- C5: deleting an existing file id reports success and removes the
metadata row whatever the object-store deletion did: a storage-level
`ClientError` is converted to a `false` return (never propagated), and
in that case the object survives in storage while the metadata row is
still removed. -/
theorem C5_delete_file_unchecked_storage (s : FSState) (file_id : Nat)
    (r : FileRecord) (e : String)
    (h : file_get_by_id s.records file_id = some r) :
    s3_delete_file (.clientError e) = false ∧
    delete_file s (.clientError e) file_id =
      ({ storage := s.storage,
         records := s.records.eraseP (fun x => x.id = file_id) }, true) ∧
    delete_file s .success file_id =
      ({ storage := dictPop r.file_key s.storage,
         records := s.records.eraseP (fun x => x.id = file_id) }, true) := by
  refine ⟨rfl, ?_, ?_⟩ <;> simp [delete_file, h, s3_delete_effect]

/-- C5 witness: a concrete one-file state, deleted under a failing and
under a succeeding storage call. -/
theorem C5_delete_file_unchecked_storage_witness :
    file_get_by_id
        ([{ id := 1, task_id := 5, filename := "a.pdf", file_key := "k",
            content_type := "application/pdf", size_bytes := 2,
            uploaded_at := 7 }] : List FileRecord) 1 =
      some { id := 1, task_id := 5, filename := "a.pdf", file_key := "k",
             content_type := "application/pdf", size_bytes := 2,
             uploaded_at := 7 } ∧
    (s3_delete_file (.clientError "NoSuchKey") = false ∧
     delete_file
        ⟨[("k", [9, 8])],
         [{ id := 1, task_id := 5, filename := "a.pdf", file_key := "k",
            content_type := "application/pdf", size_bytes := 2,
            uploaded_at := 7 }]⟩ (.clientError "NoSuchKey") 1 =
       ({ storage := [("k", [9, 8])],
          records :=
            ([{ id := 1, task_id := 5, filename := "a.pdf", file_key := "k",
                content_type := "application/pdf", size_bytes := 2,
                uploaded_at := 7 }] : List FileRecord).eraseP
              (fun x => x.id = 1) }, true) ∧
     delete_file
        ⟨[("k", [9, 8])],
         [{ id := 1, task_id := 5, filename := "a.pdf", file_key := "k",
            content_type := "application/pdf", size_bytes := 2,
            uploaded_at := 7 }]⟩ .success 1 =
       ({ storage := dictPop "k" [("k", [9, 8])],
          records :=
            ([{ id := 1, task_id := 5, filename := "a.pdf", file_key := "k",
                content_type := "application/pdf", size_bytes := 2,
                uploaded_at := 7 }] : List FileRecord).eraseP
              (fun x => x.id = 1) }, true)) :=
  ⟨by decide,
   C5_delete_file_unchecked_storage
     ⟨[("k", [9, 8])],
      [{ id := 1, task_id := 5, filename := "a.pdf", file_key := "k",
         content_type := "application/pdf", size_bytes := 2,
         uploaded_at := 7 }]⟩ 1
     { id := 1, task_id := 5, filename := "a.pdf", file_key := "k",
       content_type := "application/pdf", size_bytes := 2, uploaded_at := 7 }
     "NoSuchKey" (by decide)⟩

/-- C6: bulk deletion for a task removes exactly the metadata rows with
that `task_id` and returns their count — independent of the per-object
storage outcomes, so it is the count of metadata rows, not of successful
object deletions — leaving the listing for the deleted task empty and
every other task's listing unchanged. -/
theorem C6_delete_files_by_task_scoped (s : FSState)
    (outcome : String → S3DeleteOutcome) (task_id : Nat) :
    (delete_files_by_task s outcome task_id).1.records =
      s.records.filter (fun r => ¬ r.task_id = task_id) ∧
    (delete_files_by_task s outcome task_id).2 =
      (s.records.filter (fun r => r.task_id = task_id)).length ∧
    get_by_task_id (delete_files_by_task s outcome task_id).1.records task_id
      = [] ∧
    (∀ t, ¬ t = task_id →
      get_by_task_id (delete_files_by_task s outcome task_id).1.records t =
        get_by_task_id s.records t) := by
  have hrec : (delete_files_by_task s outcome task_id).1.records =
      s.records.filter (fun r => ¬ r.task_id = task_id) := rfl
  refine ⟨hrec, ?_, ?_, ?_⟩
  · show (get_by_task_id s.records task_id).length = _
    simp [get_by_task_id, List.length_insertionSort]
  · rw [hrec]
    unfold get_by_task_id
    rw [List.filter_filter]
    have : (s.records.filter
        (fun a => decide (a.task_id = task_id) && decide (¬ a.task_id = task_id)))
        = [] := by
      apply List.filter_eq_nil_iff.mpr
      intro a _
      by_cases ha : a.task_id = task_id <;> simp [ha]
    rw [this]
    rfl
  · intro t ht
    rw [hrec]
    unfold get_by_task_id
    rw [List.filter_filter]
    have : (s.records.filter
        (fun a => decide (a.task_id = t) && decide (¬ a.task_id = task_id)))
        = s.records.filter (fun a => a.task_id = t) := by
      apply List.filter_congr
      intro a _
      by_cases ha : a.task_id = t
      · simp [ha, ht]
      · simp [ha]
    rw [this]

/-- C6 witness: two files under task 5 and one under task 6; deleting
task 5's files (with failing storage calls) reports 2, empties task 5's
listing and leaves task 6's untouched. -/
theorem C6_delete_files_by_task_scoped_witness :
    ¬ (6 : Nat) = 5 ∧
    (delete_files_by_task
        ⟨[("k1", [1]), ("k2", [2]), ("k3", [3])],
         [{ id := 1, task_id := 5, filename := "a.pdf", file_key := "k1",
            content_type := "t", size_bytes := 1, uploaded_at := 1 },
          { id := 2, task_id := 5, filename := "b.pdf", file_key := "k2",
            content_type := "t", size_bytes := 1, uploaded_at := 2 },
          { id := 3, task_id := 6, filename := "c.pdf", file_key := "k3",
            content_type := "t", size_bytes := 1, uploaded_at := 3 }]⟩
        (fun _ => .clientError "down") 5).2 =
      (([{ id := 1, task_id := 5, filename := "a.pdf", file_key := "k1",
           content_type := "t", size_bytes := 1, uploaded_at := 1 },
         { id := 2, task_id := 5, filename := "b.pdf", file_key := "k2",
           content_type := "t", size_bytes := 1, uploaded_at := 2 },
         { id := 3, task_id := 6, filename := "c.pdf", file_key := "k3",
           content_type := "t", size_bytes := 1, uploaded_at := 3 }] :
          List FileRecord).filter (fun r => r.task_id = 5)).length ∧
    get_by_task_id
      (delete_files_by_task
        ⟨[("k1", [1]), ("k2", [2]), ("k3", [3])],
         [{ id := 1, task_id := 5, filename := "a.pdf", file_key := "k1",
            content_type := "t", size_bytes := 1, uploaded_at := 1 },
          { id := 2, task_id := 5, filename := "b.pdf", file_key := "k2",
            content_type := "t", size_bytes := 1, uploaded_at := 2 },
          { id := 3, task_id := 6, filename := "c.pdf", file_key := "k3",
            content_type := "t", size_bytes := 1, uploaded_at := 3 }]⟩
        (fun _ => .clientError "down") 5).1.records 5 = [] ∧
    get_by_task_id
      (delete_files_by_task
        ⟨[("k1", [1]), ("k2", [2]), ("k3", [3])],
         [{ id := 1, task_id := 5, filename := "a.pdf", file_key := "k1",
            content_type := "t", size_bytes := 1, uploaded_at := 1 },
          { id := 2, task_id := 5, filename := "b.pdf", file_key := "k2",
            content_type := "t", size_bytes := 1, uploaded_at := 2 },
          { id := 3, task_id := 6, filename := "c.pdf", file_key := "k3",
            content_type := "t", size_bytes := 1, uploaded_at := 3 }]⟩
        (fun _ => .clientError "down") 5).1.records 6 =
      get_by_task_id
        [{ id := 1, task_id := 5, filename := "a.pdf", file_key := "k1",
           content_type := "t", size_bytes := 1, uploaded_at := 1 },
         { id := 2, task_id := 5, filename := "b.pdf", file_key := "k2",
           content_type := "t", size_bytes := 1, uploaded_at := 2 },
         { id := 3, task_id := 6, filename := "c.pdf", file_key := "k3",
           content_type := "t", size_bytes := 1, uploaded_at := 3 }] 6 :=
  ⟨by decide,
   (C6_delete_files_by_task_scoped _ (fun _ => .clientError "down") 5).2.1,
   (C6_delete_files_by_task_scoped _ (fun _ => .clientError "down") 5).2.2.1,
   (C6_delete_files_by_task_scoped _ (fun _ => .clientError "down") 5).2.2.2
     6 (by decide)⟩

theorem sizeConsistent_upload (cfg : Config) {s : FSState} (file : UploadFile)
    (task_id uploaded_at : Nat) (unique_id : String) (new_id : Nat)
    (hcons : sizeConsistent s)
    (hfresh : dictGet (generate_file_key task_id unique_id file.filename)
        s.storage = none) :
    sizeConsistent
      (upload_file cfg s file task_id uploaded_at unique_id new_id).1 := by
  by_cases hext : validate_file_extension cfg file.filename
  · by_cases hsize : validate_file_size cfg file.content.length
    · have hred :
          (upload_file cfg s file task_id uploaded_at unique_id new_id).1 =
          { storage := dictSet (generate_file_key task_id unique_id
              file.filename) file.content s.storage
            records := s.records ++
              [{ id := new_id, task_id := task_id, filename := file.filename,
                 file_key := generate_file_key task_id unique_id file.filename,
                 content_type := file.content_type,
                 size_bytes := file.content.length,
                 uploaded_at := uploaded_at }] } := by
        simp [upload_file, hext, hsize]
      rw [hred]
      intro r hr
      simp only [List.mem_append, List.mem_singleton] at hr
      rcases hr with hr | hr
      · obtain ⟨c, hc, hlen⟩ := hcons r hr
        have hne : r.file_key ≠
            generate_file_key task_id unique_id file.filename := by
          intro he
          rw [he, hfresh] at hc
          exact Option.noConfusion hc
        refine ⟨c, ?_, hlen⟩
        show dictGet r.file_key (dictSet _ _ s.storage) = some c
        rw [dictGet_dictSet_ne hne]
        exact hc
      · subst hr
        refine ⟨file.content, ?_, rfl⟩
        show dictGet (generate_file_key task_id unique_id file.filename)
          (dictSet (generate_file_key task_id unique_id file.filename)
            file.content s.storage) = some file.content
        exact dictGet_dictSet_self
    · have hred :
          (upload_file cfg s file task_id uploaded_at unique_id new_id).1 = s := by
        simp [upload_file, hext, hsize]
      rw [hred]
      exact hcons
  · have hred :
        (upload_file cfg s file task_id uploaded_at unique_id new_id).1 = s := by
      simp [upload_file, hext]
    rw [hred]
    exact hcons

/-- C8: under the size consistency the service's own operations maintain
(see `sizeConsistent_upload`), downloading an id present in the metadata
store yields 200 with the stored object's bytes, a
`Content-Disposition` attachment header naming the stored filename, and
a `Content-Length` exactly equal to the byte count of the returned
body; an absent id yields 404. -/
theorem C8_download_headers (s : FSState) (file_id : Nat)
    (hcons : sizeConsistent s) :
    (file_get_by_id s.records file_id = none →
      download_file_endpoint s file_id =
        .ok { status := 404, body := [], headers := [] }) ∧
    (∀ r, file_get_by_id s.records file_id = some r →
      ∃ b, download_file_endpoint s file_id =
        .ok { status := 200, body := b,
              headers :=
                [("Content-Disposition",
                  "attachment; filename=\x22" ++ r.filename ++ "\x22"),
                 ("Content-Length", toString b.length)] }) := by
  constructor
  · intro h
    simp [download_file_endpoint, h]
  · intro r h
    have hr : r ∈ s.records := List.mem_of_find?_eq_some h
    obtain ⟨c, hc, hlen⟩ := hcons r hr
    refine ⟨c, ?_⟩
    simp [download_file_endpoint, h, hc, hlen]

/-- C8 witness: one stored file whose recorded size matches its object;
id 2 is absent (404) and id 1 downloads with matching headers. -/
theorem C8_download_headers_witness :
    sizeConsistent
      ⟨[("k", [9, 8])],
       [{ id := 1, task_id := 5, filename := "a.pdf", file_key := "k",
          content_type := "application/pdf", size_bytes := 2,
          uploaded_at := 7 }]⟩ ∧
    download_file_endpoint
      ⟨[("k", [9, 8])],
       [{ id := 1, task_id := 5, filename := "a.pdf", file_key := "k",
          content_type := "application/pdf", size_bytes := 2,
          uploaded_at := 7 }]⟩ 2 =
      .ok { status := 404, body := [], headers := [] } ∧
    ∃ b, download_file_endpoint
      ⟨[("k", [9, 8])],
       [{ id := 1, task_id := 5, filename := "a.pdf", file_key := "k",
          content_type := "application/pdf", size_bytes := 2,
          uploaded_at := 7 }]⟩ 1 =
      .ok { status := 200, body := b,
            headers :=
              [("Content-Disposition",
                "attachment; filename=\x22a.pdf\x22"),
               ("Content-Length", toString b.length)] } := by
  have hcons : sizeConsistent
      ⟨[("k", [9, 8])],
       [{ id := 1, task_id := 5, filename := "a.pdf", file_key := "k",
          content_type := "application/pdf", size_bytes := 2,
          uploaded_at := 7 }]⟩ := by
    intro r hr
    simp only [List.mem_singleton] at hr
    subst hr
    exact ⟨[9, 8], rfl, rfl⟩
  refine ⟨hcons, ?_, ?_⟩
  · exact (C8_download_headers _ 2 hcons).1 (by decide)
  · exact (C8_download_headers _ 1 hcons).2
      { id := 1, task_id := 5, filename := "a.pdf", file_key := "k",
        content_type := "application/pdf", size_bytes := 2, uploaded_at := 7 }
      (by decide)

theorem lastIndexOf_eq_none {c : Char} {l : List Char} (h : c ∉ l) :
    lastIndexOf c l = none := by
  induction l with
  | nil => rfl
  | cons x xs ih =>
    rw [List.mem_cons, not_or] at h
    unfold lastIndexOf
    rw [ih h.2, if_neg (fun hx => h.1 hx.symm)]

theorem splitext_dot_leading {rest : List Char} (hnodot : '.' ∉ rest) :
    splitext ('.' :: rest) = ('.' :: rest, []) := by
  have hdot : lastIndexOf '.' ('.' :: rest) = some 0 := by
    unfold lastIndexOf
    rw [lastIndexOf_eq_none hnodot, if_pos rfl]
  cases hsep : lastIndexOf '/' ('.' :: rest) with
  | none => simp [splitext, hdot, hsep]
  | some i => simp [splitext, hdot, hsep]

/-- C10: a filename whose only dot is its leading character (such as
`.pdf`) gets an empty suffix from `splitext`, so the extension check
fails and the upload is rejected with the extension error even when the
filename itself is literally listed in the allow-list (and the empty
string is not). -/
theorem C10_dot_leading_rejected (cfg : Config) (s : FSState)
    (file : UploadFile) (rest : List Char) (task_id uploaded_at : Nat)
    (unique_id : String) (new_id : Nat)
    (hname : file.filename.data = '.' :: rest) (hnodot : '.' ∉ rest)
    (hallow : file.filename ∈ cfg.allowed_extensions)
    (hempty : ("" : String) ∉ cfg.allowed_extensions) :
    validate_file_extension cfg file.filename = false ∧
    upload_file cfg s file task_id uploaded_at unique_id new_id =
      (s, .error ("File extension not allowed. Allowed extensions: "
          ++ String.intercalate ", " cfg.allowed_extensions)) := by
  have hval : validate_file_extension cfg file.filename = false := by
    unfold validate_file_extension
    rw [hname, splitext_dot_leading hnodot]
    simpa using hempty
  exact ⟨hval, by simp [upload_file, hval]⟩

/-- C10 witness: the literal filename `.pdf` is in the allow-list, yet
the upload is rejected with the extension error. -/
theorem C10_dot_leading_rejected_witness :
    (".pdf" : String).data = '.' :: ['p', 'd', 'f'] ∧
    '.' ∉ ['p', 'd', 'f'] ∧
    (".pdf" : String) ∈ [".pdf"] ∧
    ("" : String) ∉ [".pdf"] ∧
    (validate_file_extension ⟨[".pdf"], 10⟩ ".pdf" = false ∧
     upload_file ⟨[".pdf"], 10⟩ ⟨[], []⟩ ⟨".pdf", "application/pdf", [1]⟩
         1 0 "u" 1 =
       (⟨[], []⟩, .error ("File extension not allowed. Allowed extensions: "
           ++ String.intercalate ", " [".pdf"]))) :=
  ⟨by decide, by decide, by decide, by decide,
   C10_dot_leading_rejected ⟨[".pdf"], 10⟩ ⟨[], []⟩
     ⟨".pdf", "application/pdf", [1]⟩ ['p', 'd', 'f'] 1 0 "u" 1
     (by decide) (by decide) (by decide) (by decide)⟩

end Kanban.FileSvc
